import Mathlib

/-!
Verification of the request-parameter resolution core of picsum-photos
(`internal/params/params.go`), shallowly embedded in Lean 4.

Go `int` values are modelled as `Int`.  The HTTP request is modelled by the
two pieces of data the code reads from it: the path variables produced by the
router (`mux.Vars`, a string-to-string map, embedded as an association list)
and the parsed query string (`url.Values`, a string-to-list-of-strings map).
Errors are a closed enumeration mirroring the three sentinel error values.
-/

namespace Picsum

/-- Modelled from the spec: the external image-metadata record
(`database.Image`), which is not part of the source slice; it exposes the
source image's natural pixel `Width` and `Height`. -/
structure Image where
  Width : Int
  Height : Int
deriving Repr, DecidableEq

/-- The three sentinel error values declared at module level in the source. -/
inductive ParamsError where
  | ErrInvalidSize
  | ErrInvalidBlurAmount
  | ErrInvalidFileExtension
deriving Repr, DecidableEq

/-- `Params` from the source: all the parameters for a request. -/
structure Params where
  Width : Int
  Height : Int
  Blur : Bool
  BlurAmount : Int
  Grayscale : Bool
  Extension : String
deriving Repr, DecidableEq

def defaultBlurAmount : Int := 5
def minBlurAmount : Int := 1
def maxBlurAmount : Int := 10

/-- The max allowed image width/height that can be requested. -/
def maxImageSize : Int := 5000

/-- The data the code reads from an `*http.Request`: the router's path
variables (`mux.Vars(r)`) and the parsed query string (`r.URL.Query()`). -/
structure Request where
  pathVars : List (String × String)
  query : List (String × List String)
deriving Repr, DecidableEq

/-- Lookup in the path-variable map (`vars[name]`, with presence flag). -/
def varsGet (vars : List (String × String)) (name : String) : Option String :=
  (vars.find? (fun p => p.1 == name)).map (fun p => p.2)

/-- Presence test on the query map (`_, ok := r.URL.Query()[name]`). -/
def queryHas (query : List (String × List String)) (name : String) : Bool :=
  (query.find? (fun p => p.1 == name)).isSome

/-- `url.Values.Get`: the first value associated with the key, or the empty
string when the key is absent or has no values. -/
def queryGet (query : List (String × List String)) (name : String) : String :=
  match query.find? (fun p => p.1 == name) with
  | none => ""
  | some (_, []) => ""
  | some (_, v :: _) => v

def int64Min : Int := -9223372036854775808
def int64Max : Int := 9223372036854775807

/-- Lowercasing of one character (`strings.ToLower` acts per rune; only the
ASCII range matters for the whitelisted extensions). -/
def toLowerChar (c : Char) : Char :=
  if 'A' ≤ c ∧ c ≤ 'Z' then Char.ofNat (c.toNat + 32) else c

/-- `strings.ToLower`: lowercase every character of the string. -/
def toLower (s : String) : String :=
  String.mk (s.data.map toLowerChar)

/-- Value of a decimal digit character, or `none` for a non-digit. -/
def digitVal (c : Char) : Option Nat :=
  if '0' ≤ c ∧ c ≤ '9' then some (c.toNat - 48) else none

/-- Decimal value of a digit string; `none` if any character is a non-digit. -/
def digitsToNat (cs : List Char) : Option Nat :=
  cs.foldl
    (fun acc c =>
      match acc, digitVal c with
      | some n, some d => some (n * 10 + d)
      | _, _ => none)
    (some 0)

/-- `strconv.Atoi`: an optional leading sign followed by at least one decimal
digit, rejecting values outside the 64-bit signed integer range.  `none`
models a non-nil error. -/
def atoi (s : String) : Option Int :=
  let cs := s.toList
  let stripped : Int × List Char :=
    match cs with
    | '+' :: rest => (1, rest)
    | '-' :: rest => (-1, rest)
    | rest => (1, rest)
  match stripped with
  | (sign, rest) =>
    if rest = [] then none
    else
      match digitsToNat rest with
      | none => none
      | some n =>
        let v : Int := sign * (n : Int)
        if int64Min ≤ v ∧ v ≤ int64Max then some v else none

/-- `intParam`: tries to get a path param and convert it to an integer.  The
integer component on failure is never observed by the caller (`getSize`
returns `-1, -1` itself), matching the source's discarded value. -/
def intParam (r : Request) (name : String) : Int × Bool :=
  match varsGet r.pathVars name with
  | some val =>
    match atoi val with
    | some n => (n, true)
    | none => (0, false)
  | none => (-1, false)

/-- `getSize`: the image size from the `size` or the `width`/`height` path
params. -/
def getSize (r : Request) : Except ParamsError (Int × Int) :=
  let s := intParam r "size"
  if s.2 then
    Except.ok (s.1, s.1)
  else
    let w := intParam r "width"
    if w.2 then
      let h := intParam r "height"
      if h.2 then Except.ok (w.1, h.1)
      else Except.error ParamsError.ErrInvalidSize
    else Except.error ParamsError.ErrInvalidSize

/-- `getFileExtension`: the optional file extension from the path params,
lowercased, defaulted to `.jpg`, and restricted to `.jpg`/`.webp`. -/
def getFileExtension (r : Request) : Except ParamsError String :=
  let val := toLower ((varsGet r.pathVars "extension").getD "")
  let val := if val = "" then ".jpg" else val
  if val ≠ ".jpg" ∧ val ≠ ".webp" then
    Except.error ParamsError.ErrInvalidFileExtension
  else Except.ok val

/-- `getQueryParams`: whether the `grayscale` and `blur` query params are
present, and the blur amount. -/
def getQueryParams (r : Request) : Bool × Bool × Int :=
  let grayscale := queryHas r.query "grayscale"
  if queryHas r.query "blur" then
    match atoi (queryGet r.query "blur") with
    | some val => (grayscale, true, val)
    | none => (grayscale, true, defaultBlurAmount)
  else (grayscale, false, 0)

/-- `GetParams`: parses and returns all the path and query parameters. -/
def GetParams (r : Request) : Except ParamsError Params :=
  match getSize r with
  | Except.error err => Except.error err
  | Except.ok (width, height) =>
    match getFileExtension r with
    | Except.error err => Except.error err
    | Except.ok extension =>
      match getQueryParams r with
      | (grayscale, blur, blurAmount) =>
        Except.ok (Params.mk width height blur blurAmount grayscale extension)

/-- `Validate`: checks that the size and blur amounts are within the allowed
limits.  `none` models a nil error. -/
def Params.Validate (p : Params) (image : Image) : Option ParamsError :=
  if p.Width > maxImageSize ∧ p.Width ≠ image.Width then
    some ParamsError.ErrInvalidSize
  else if p.Height > maxImageSize ∧ p.Height ≠ image.Height then
    some ParamsError.ErrInvalidSize
  else if p.Blur ∧ p.BlurAmount < minBlurAmount then
    some ParamsError.ErrInvalidBlurAmount
  else if p.Blur ∧ p.BlurAmount > maxBlurAmount then
    some ParamsError.ErrInvalidBlurAmount
  else none

/-- `Dimensions`: the image dimensions based on the given params, defaulting
to the image width/height if 0 is passed. -/
def Params.Dimensions (p : Params) (databaseImage : Image) : Int × Int :=
  let width := p.Width
  let height := p.Height
  let width := if width = 0 then databaseImage.Width else width
  let height := if height = 0 then databaseImage.Height else height
  (width, height)

/-- `Validate` with the state of both records threaded explicitly: the Go
method receives `*Params` and `*database.Image` and could in principle write
through either pointer; the embedding returns, next to the result, the state
of both records after each control path, read off statement by statement from
the source (which contains no assignment through either pointer). -/
def Params.ValidateSt (p : Params) (image : Image) :
    Option ParamsError × Params × Image :=
  if p.Width > maxImageSize ∧ p.Width ≠ image.Width then
    (some ParamsError.ErrInvalidSize, p, image)
  else if p.Height > maxImageSize ∧ p.Height ≠ image.Height then
    (some ParamsError.ErrInvalidSize, p, image)
  else if p.Blur ∧ p.BlurAmount < minBlurAmount then
    (some ParamsError.ErrInvalidBlurAmount, p, image)
  else if p.Blur ∧ p.BlurAmount > maxBlurAmount then
    (some ParamsError.ErrInvalidBlurAmount, p, image)
  else (none, p, image)

/-- `Dimensions` with the state of both records threaded explicitly, as for
`ValidateSt`: the locals `width`/`height` are copies, and the source assigns
only to them, never through the receiver or the image pointer. -/
def Params.DimensionsSt (p : Params) (databaseImage : Image) :
    (Int × Int) × Params × Image :=
  let width := p.Width
  let height := p.Height
  let width := if width = 0 then databaseImage.Width else width
  let height := if height = 0 then databaseImage.Height else height
  ((width, height), p, databaseImage)

/-! Helper lemmas shared by the claim theorems. -/

theorem intParam_some {r : Request} {name : String} {S : Int}
    (h : (varsGet r.pathVars name).bind atoi = some S) :
    intParam r name = (S, true) := by
  cases hv : varsGet r.pathVars name with
  | none => rw [hv] at h; simp at h
  | some val =>
    rw [hv] at h
    simp only [Option.some_bind] at h
    simp [intParam, hv, h]

theorem intParam_isFalse {r : Request} {name : String}
    (h : (varsGet r.pathVars name).bind atoi = none) :
    (intParam r name).2 = false := by
  cases hv : varsGet r.pathVars name with
  | none => simp [intParam, hv]
  | some val =>
    rw [hv] at h
    simp only [Option.some_bind] at h
    simp [intParam, hv, h]

theorem getFileExtension_ok {r : Request} {e : String}
    (h : getFileExtension r = Except.ok e) :
    e = ".jpg" ∨ e = ".webp" := by
  simp only [getFileExtension] at h
  split_ifs at h with h0 h1 h2 <;> rw [Except.ok.injEq] at h <;> subst h <;> tauto

/-! The claim theorems. -/

/-- Claim C1: `Validate` returns `InvalidSize` whenever a requested dimension
exceeds the 5000 ceiling and differs from the image's natural dimension; a
request for exactly the image's natural size is never rejected by the size
ceiling; and after a successful `Validate` each of `Width`/`Height` is either
at most 5000 or exactly equal to the corresponding natural dimension. -/
theorem validate_size_rules (p : Params) (m : Image) :
    ((p.Width > 5000 ∧ p.Width ≠ m.Width) ∨ (p.Height > 5000 ∧ p.Height ≠ m.Height) →
      p.Validate m = some ParamsError.ErrInvalidSize)
    ∧ (p.Width = m.Width ∧ p.Height = m.Height →
        p.Validate m ≠ some ParamsError.ErrInvalidSize)
    ∧ (p.Validate m = none →
        (p.Width ≤ 5000 ∨ p.Width = m.Width) ∧ (p.Height ≤ 5000 ∨ p.Height = m.Height)) := by
  unfold Params.Validate maxImageSize minBlurAmount maxBlurAmount
  refine ⟨?_, ?_, ?_⟩
  · rintro (⟨hw, hw2⟩ | ⟨hh, hh2⟩)
    · rw [if_pos ⟨hw, hw2⟩]
    · by_cases hW : p.Width > (5000 : Int) ∧ p.Width ≠ m.Width
      · rw [if_pos hW]
      · rw [if_neg hW, if_pos ⟨hh, hh2⟩]
  · rintro ⟨hW, hH⟩
    rw [if_neg (by simp [hW]), if_neg (by simp [hH])]
    split_ifs <;> simp
  · intro h
    split_ifs at h with h1 h2 h3 h4
    constructor <;> [clear h3 h4 h; clear h3 h4 h] <;> omega

/-- Claim C1 witness: a width of 6000 against a natural width of 3000 is
rejected with `InvalidSize`. -/
theorem validate_size_rules_witness :
    (Params.mk 6000 100 false 0 false ".jpg").Validate (Image.mk 3000 100) =
      some ParamsError.ErrInvalidSize :=
  (validate_size_rules _ _).1 (Or.inl (by decide))

/-- Claim C2: when the `size` path variable is present and integer-parseable
to `S`, size resolution returns `(S, S)` — both dimensions set to `S` — no
matter which other path variables are present. -/
theorem getSize_size_precedence (r : Request) (S : Int)
    (h : (varsGet r.pathVars "size").bind atoi = some S) :
    getSize r = Except.ok (S, S) := by
  simp [getSize, intParam_some h]

/-- Claim C2 witness: `size=200` wins even with `width`/`height` present. -/
theorem getSize_size_precedence_witness :
    getSize (Request.mk [("size", "200"), ("width", "10"), ("height", "20")] []) =
      Except.ok (200, 200) :=
  getSize_size_precedence _ 200 (by decide)

/-- Claim C3: when no integer-parseable `size` path variable is present and
either `width` or `height` is missing or not integer-parseable, size
resolution fails with `InvalidSize`, and `GetParams` returns that error with
no partial result. -/
theorem getSize_requires_width_height (r : Request)
    (hs : (varsGet r.pathVars "size").bind atoi = none)
    (hwh : (varsGet r.pathVars "width").bind atoi = none ∨
           (varsGet r.pathVars "height").bind atoi = none) :
    getSize r = Except.error ParamsError.ErrInvalidSize
    ∧ GetParams r = Except.error ParamsError.ErrInvalidSize := by
  have hg : getSize r = Except.error ParamsError.ErrInvalidSize := by
    simp only [getSize, intParam_isFalse hs, Bool.false_eq_true, if_false]
    rcases hwh with hw | hh
    · simp [intParam_isFalse hw]
    · cases hwb : (intParam r "width").2
      · simp [hwb]
      · simp [hwb, intParam_isFalse hh]
  refine ⟨hg, ?_⟩
  unfold GetParams
  rw [hg]

/-- Claim C3 witness: a request with only a non-integer `width` and no `size`
or `height` fails with `InvalidSize` from both `getSize` and `GetParams`. -/
theorem getSize_requires_width_height_witness :
    getSize (Request.mk [("width", "abc")] []) = Except.error ParamsError.ErrInvalidSize
    ∧ GetParams (Request.mk [("width", "abc")] []) = Except.error ParamsError.ErrInvalidSize :=
  getSize_requires_width_height _ (by decide) (Or.inl (by decide))

/-- Claim C4: extension resolution lowercases the `extension` path variable
(absent read as the empty string), defaults an empty result to `.jpg`,
accepts exactly `.jpg` and `.webp`, rejects anything else with
`InvalidFileExtension`, and consequently every successfully constructed
`Params` has `Extension` equal to `.jpg` or `.webp`. -/
theorem getFileExtension_spec (r : Request) :
    (toLower ((varsGet r.pathVars "extension").getD "") = "" →
      getFileExtension r = Except.ok ".jpg")
    ∧ (toLower ((varsGet r.pathVars "extension").getD "") = ".jpg" ∨
       toLower ((varsGet r.pathVars "extension").getD "") = ".webp" →
      getFileExtension r = Except.ok (toLower ((varsGet r.pathVars "extension").getD "")))
    ∧ (toLower ((varsGet r.pathVars "extension").getD "") ≠ "" ∧
       toLower ((varsGet r.pathVars "extension").getD "") ≠ ".jpg" ∧
       toLower ((varsGet r.pathVars "extension").getD "") ≠ ".webp" →
      getFileExtension r = Except.error ParamsError.ErrInvalidFileExtension)
    ∧ (∀ p, GetParams r = Except.ok p →
        p.Extension = ".jpg" ∨ p.Extension = ".webp") := by
  refine ⟨?_, ?_, ?_, ?_⟩
  · intro h
    simp [getFileExtension, h]
  · rintro (h | h) <;> simp [getFileExtension, h]
  · rintro ⟨h0, h1, h2⟩
    simp only [getFileExtension, if_neg h0]
    rw [if_pos ⟨h1, h2⟩]
  · intro p hp
    unfold GetParams at hp
    cases hgs : getSize r with
    | error err => rw [hgs] at hp; simp at hp
    | ok wh =>
      obtain ⟨w, h⟩ := wh
      rw [hgs] at hp
      cases hfe : getFileExtension r with
      | error err => rw [hfe] at hp; simp at hp
      | ok ext =>
        rw [hfe] at hp
        simp only at hp
        have hext : p.Extension = ext := by
          rcases hq : getQueryParams r with ⟨g, b, a⟩
          rw [hq] at hp
          simp only [Except.ok.injEq] at hp
          rw [← hp]
        rw [hext]
        exact getFileExtension_ok hfe

/-- Claim C4 witness: with no `extension` path variable the resolved value is
the default `.jpg`. -/
theorem getFileExtension_spec_witness :
    getFileExtension (Request.mk [] []) = Except.ok ".jpg" :=
  (getFileExtension_spec (Request.mk [] [])).1 (by decide)

/-- Claim C5: query-flag resolution never fails: `Grayscale` is true iff a
`grayscale` query parameter is present, `Blur` is true iff a `blur` query
parameter is present, and when `blur` is present the blur amount is the
parameter's value when it parses as an integer and the default 5 otherwise. -/
theorem getQueryParams_spec (r : Request) :
    (getQueryParams r).1 = queryHas r.query "grayscale"
    ∧ (getQueryParams r).2.1 = queryHas r.query "blur"
    ∧ (queryHas r.query "blur" = true →
        (∀ v, atoi (queryGet r.query "blur") = some v → (getQueryParams r).2.2 = v)
        ∧ (atoi (queryGet r.query "blur") = none → (getQueryParams r).2.2 = 5)) := by
  unfold getQueryParams defaultBlurAmount
  cases hb : queryHas r.query "blur" <;>
    cases ha : atoi (queryGet r.query "blur") <;>
      simp [hb, ha]

/-- Claim C5 witness: `grayscale` present and `blur=3` resolve to a grayscale
request with blur amount 3. -/
theorem getQueryParams_spec_witness :
    (getQueryParams (Request.mk [] [("grayscale", []), ("blur", ["3"])])).1 = true
    ∧ (getQueryParams (Request.mk [] [("grayscale", []), ("blur", ["3"])])).2.2 = 3 :=
  ⟨(getQueryParams_spec _).1.trans (by decide),
   ((getQueryParams_spec _).2.2 (by decide)).1 3 (by decide)⟩

/-- Claim C6: with blur requested and the size checks passing, `Validate`
returns `InvalidBlurAmount` exactly when the blur amount is below 1 or above
10, and returns no error when the blur amount lies in `[1, 10]`. -/
theorem validate_blur_range (p : Params) (m : Image)
    (hb : p.Blur = true)
    (hw : ¬(p.Width > 5000 ∧ p.Width ≠ m.Width))
    (hh : ¬(p.Height > 5000 ∧ p.Height ≠ m.Height)) :
    (p.Validate m = some ParamsError.ErrInvalidBlurAmount ↔
      p.BlurAmount < 1 ∨ p.BlurAmount > 10)
    ∧ (1 ≤ p.BlurAmount ∧ p.BlurAmount ≤ 10 → p.Validate m = none) := by
  unfold Params.Validate maxImageSize minBlurAmount maxBlurAmount
  rw [if_neg hw, if_neg hh]
  simp only [hb, true_and]
  split_ifs <;> simp <;> omega

/-- Claim C6 witness: blur amount 5 with blur requested passes validation. -/
theorem validate_blur_range_witness :
    (Params.mk 100 100 true 5 false ".jpg").Validate (Image.mk 1 1) = none :=
  (validate_blur_range _ _ rfl (by decide) (by decide)).2 (by decide)

/-- Claim C7: `Dimensions` is total and returns the requested width and
height, except that a component equal to 0 is replaced by the corresponding
natural dimension; any non-zero component is passed through unchanged with
no re-validation. -/
theorem dimensions_spec (p : Params) (m : Image) :
    p.Dimensions m =
      ((if p.Width = 0 then m.Width else p.Width),
       (if p.Height = 0 then m.Height else p.Height))
    ∧ (p.Width ≠ 0 → (p.Dimensions m).1 = p.Width)
    ∧ (p.Height ≠ 0 → (p.Dimensions m).2 = p.Height)
    ∧ (p.Width = 0 → (p.Dimensions m).1 = m.Width)
    ∧ (p.Height = 0 → (p.Dimensions m).2 = m.Height) := by
  refine ⟨rfl, ?_, ?_, ?_, ?_⟩ <;>
    intro h <;> simp [Params.Dimensions, h]

/-- Claim C7 witness: a width of 6001 — above the ceiling — and a height of 0
against a 800×600 image resolve to 6001×600. -/
theorem dimensions_spec_witness :
    ((Params.mk 6001 0 false 0 false ".jpg").Dimensions (Image.mk 800 600)).1 = 6001
    ∧ ((Params.mk 6001 0 false 0 false ".jpg").Dimensions (Image.mk 800 600)).2 = 600 :=
  ⟨(dimensions_spec _ _).2.1 (by decide), (dimensions_spec _ _).2.2.2.2 (by decide)⟩

/-- Claim C8: parameter resolution is deterministic: two requests carrying
the same path variables and the same query parameters resolve to the same
result, values and errors alike. -/
theorem getParams_deterministic (r₁ r₂ : Request)
    (hv : r₁.pathVars = r₂.pathVars) (hq : r₁.query = r₂.query) :
    GetParams r₁ = GetParams r₂ := by
  obtain ⟨pv₁, q₁⟩ := r₁
  obtain ⟨pv₂, q₂⟩ := r₂
  dsimp only at hv hq
  subst hv
  subst hq
  rfl

/-- Claim C8 witness: resolving the same request twice gives one result. -/
theorem getParams_deterministic_witness :
    GetParams (Request.mk [("size", "10")] [("blur", ["2"])]) =
      GetParams (Request.mk [("size", "10")] [("blur", ["2"])]) :=
  getParams_deterministic _ _ rfl rfl

/-- Claim C9: `Validate` imposes no lower bound on dimensions: with blur off
and both dimensions at most 5000 — zero and negative values included —
validation succeeds against every image, and `Dimensions` passes a negative
width or height through unchanged. -/
theorem validate_no_lower_bound (p : Params) (m : Image)
    (hb : p.Blur = false) (hw : p.Width ≤ 5000) (hh : p.Height ≤ 5000) :
    p.Validate m = none
    ∧ (p.Width < 0 → (p.Dimensions m).1 = p.Width)
    ∧ (p.Height < 0 → (p.Dimensions m).2 = p.Height) := by
  refine ⟨?_, ?_, ?_⟩
  · unfold Params.Validate maxImageSize minBlurAmount maxBlurAmount
    rw [if_neg (by omega), if_neg (by omega)]
    simp [hb]
  · intro h
    simp only [Params.Dimensions]
    split_ifs <;> omega
  · intro h
    simp only [Params.Dimensions]
    split_ifs <;> omega

/-- Claim C9 witness: width −5 and height −7 pass validation unmodified, and
dimension resolution keeps the negative width. -/
theorem validate_no_lower_bound_witness :
    (Params.mk (-5) (-7) false 0 false ".jpg").Validate (Image.mk 800 600) = none
    ∧ ((Params.mk (-5) (-7) false 0 false ".jpg").Dimensions (Image.mk 800 600)).1 = -5 := by
  have h := validate_no_lower_bound (Params.mk (-5) (-7) false 0 false ".jpg")
    (Image.mk 800 600) rfl (by decide) (by decide)
  exact ⟨h.1, h.2.1 (by decide)⟩

/-- Claim C10: `Validate` and `Dimensions` are read-only on their inputs: on
every control path the state-passing embeddings return the `Params` record
and the image record unchanged, while computing the same results as the
direct embeddings. -/
theorem validate_dimensions_readonly (p : Params) (m : Image) :
    (p.ValidateSt m).2 = (p, m)
    ∧ (p.DimensionsSt m).2 = (p, m)
    ∧ (p.ValidateSt m).1 = p.Validate m
    ∧ (p.DimensionsSt m).1 = p.Dimensions m := by
  unfold Params.ValidateSt Params.DimensionsSt Params.Validate Params.Dimensions
  refine ⟨?_, rfl, ?_, rfl⟩ <;> split_ifs <;> rfl

end Picsum
